import Mathlib

/-
  Verification development for the intourcams tourism-coordination
  application.  The definitions below are a shallow embedding of the
  client-side state logic (src/components/AppContext.tsx), the API layer
  (src/services/supabase.ts) and the SQL stored procedures shipped with the
  repository (embedded in src/components/views/AIPlannerView.tsx).
  Machine numbers are modelled as Nat/Int, timestamps as Nat, fallible
  operations as Except.
-/

namespace Intourcams

/-- A user row (table public.users).  Roles are the string literals used by
the source: "Admin", "Editor", "Tourism Player", "User". -/
structure User where
  id : String
  name : String
  role : String
  tier : String
deriving DecidableEq, Repr

/-- A notification row (table public.notifications).  `read_by` and
`cleared_by` are normalised to empty lists when null, as fetchNotifications
does in src/services/supabase.ts. -/
structure Notification where
  id : String
  recipient_id : String
  message : String
  related_application_id : Option String
  type : String
  timestamp : Nat
  expires_at : Option String
  read_by : List String
  cleared_by : List String
deriving DecidableEq, Repr

/-- The filter predicate of getNotificationsForCurrentUser
(src/components/AppContext.tsx lines 744-754): cleared notifications are
dropped first; then a notification is kept when it is personally addressed,
addressed to "admins" and the role is Admin or Editor, or addressed to
"grant_admins" and the role is Admin.  There is no branch for
"global_banner": such rows fall through to the final `return false`. -/
def visibleToCurrentUser (role uid : String) (n : Notification) : Bool :=
  if uid ∈ n.cleared_by then false
  else if n.recipient_id = uid then true
  else if (role = "Admin" ∨ role = "Editor") ∧ n.recipient_id = "admins" then true
  else if role = "Admin" ∧ n.recipient_id = "grant_admins" then true
  else false

/-- getNotificationsForCurrentUser (src/components/AppContext.tsx):
returns [] when no user is logged in, otherwise filters the fetched
notification list with `visibleToCurrentUser`. -/
def getNotificationsForCurrentUser (currentUser : Option User)
    (notifications : List Notification) : List Notification :=
  match currentUser with
  | none => []
  | some u => notifications.filter (fun n => visibleToCurrentUser u.role u.id n)

/-- The visibility predicate as the specification words it (spec.md §4.1):
recipient equals the account, or "admins" with an elevated role, or
"grant_admins" with the Admin role, or "global_banner" (visible to every
user) — and the account id is not in cleared_by.  Stated from the spec for
comparison with the source-derived `visibleToCurrentUser`. -/
def specVisibleNotification (u : User) (n : Notification) : Prop :=
  (n.recipient_id = u.id ∨
    (n.recipient_id = "admins" ∧ (u.role = "Admin" ∨ u.role = "Editor")) ∨
    (n.recipient_id = "grant_admins" ∧ u.role = "Admin") ∨
    n.recipient_id = "global_banner") ∧ u.id ∉ n.cleared_by

/-- A plain account used in concrete evaluations. -/
def sampleUser : User :=
  { id := "user-1", name := "Alice", role := "User", tier := "Normal" }

/-- A live global-banner notification nobody has cleared. -/
def sampleBanner : Notification :=
  { id := "n-1", recipient_id := "global_banner", message := "Welcome"
    related_application_id := none, type := "status_change", timestamp := 0
    expires_at := none, read_by := [], cleared_by := [] }

lemma visibleToCurrentUser_eq_true_iff (role uid : String) (n : Notification) :
    visibleToCurrentUser role uid n = true ↔
      ((n.recipient_id = uid ∨
        ((role = "Admin" ∨ role = "Editor") ∧ n.recipient_id = "admins") ∨
        (role = "Admin" ∧ n.recipient_id = "grant_admins")) ∧
       uid ∉ n.cleared_by) := by
  unfold visibleToCurrentUser
  split_ifs with h1 h2 h3 h4 <;> simp_all

/-- C1 counterexample: the claim asserts a "global_banner" notification is
visible to every user, but `getNotificationsForCurrentUser` has no branch
for that recipient class, so the banner row is excluded from the visible
set of an ordinary account even though the spec predicate accepts it. -/
theorem notification_visibility_spec_counterexample :
    specVisibleNotification sampleUser sampleBanner ∧
      sampleBanner ∉ getNotificationsForCurrentUser (some sampleUser) [sampleBanner] := by
  unfold specVisibleNotification
  exact ⟨by decide, by decide⟩

/-- C1 (amended): a fetched notification n is in account A's visible set iff
(n.recipient_id = A.id) ∨ (n.recipient_id = "admins" and the role is Admin
or Editor) ∨ (n.recipient_id = "grant_admins" and the role is Admin), and
A.id is not in n.cleared_by.  Notifications addressed to "global_banner"
are not part of the computed visible set. -/
theorem notification_visibility_characterisation
    (u : User) (notifications : List Notification) (n : Notification) :
    n ∈ getNotificationsForCurrentUser (some u) notifications ↔
      (n ∈ notifications ∧
        ((n.recipient_id = u.id ∨
          ((u.role = "Admin" ∨ u.role = "Editor") ∧ n.recipient_id = "admins") ∨
          (u.role = "Admin" ∧ n.recipient_id = "grant_admins")) ∧
         u.id ∉ n.cleared_by)) := by
  unfold getNotificationsForCurrentUser
  rw [List.mem_filter, visibleToCurrentUser_eq_true_iff]

/-! ### Decimal rendering

JS formats a natural number with `String(n)` (plain decimal digits, no
padding).  The fuel-based renderer below is the embedding of that
conversion; `natDigitsAux fuel n` produces the base-10 digits of n, least
significant first, and the fuel argument (always ≥ n) only forces
structural termination. -/

def natDigitsAux : Nat → Nat → List Nat
  | 0, _ => []
  | _ + 1, 0 => []
  | fuel + 1, n + 1 => ((n + 1) % 10) :: natDigitsAux fuel ((n + 1) / 10)

/-- Base-10 digits of n, least significant first ([] for 0). -/
def natDigitsRev (n : Nat) : List Nat := natDigitsAux n n

/-- Embedding of the JS conversion String(n) for a natural number n. -/
def jsNatToString (n : Nat) : String :=
  if n = 0 then "0"
  else String.mk ((natDigitsRev n).reverse.map (fun d => Char.ofNat (48 + d)))

/-- Embedding of the JS call s.padStart(2, the zero character): prepend
zeros until the length reaches 2. -/
def jsPadStart2Zero (s : String) : String :=
  if 2 ≤ s.length then s
  else String.mk (List.replicate (2 - s.length) '0') ++ s

lemma natDigitsAux_zero (fuel : Nat) : natDigitsAux fuel 0 = [] := by
  cases fuel <;> rfl

lemma natDigitsAux_mem_lt (fuel n d : Nat) (h : d ∈ natDigitsAux fuel n) :
    d < 10 := by
  induction fuel generalizing n with
  | zero => simp [natDigitsAux] at h
  | succ fuel ih =>
    cases n with
    | zero => simp [natDigitsAux] at h
    | succ m =>
      simp only [natDigitsAux, List.mem_cons] at h
      rcases h with h | h
      · subst h; exact Nat.mod_lt _ (by omega)
      · exact ih _ h

lemma natDigitsAux_length (fuel n k : Nat) (hfuel : n ≤ fuel)
    (hlo : 10 ^ k ≤ n) (hhi : n < 10 ^ (k + 1)) :
    (natDigitsAux fuel n).length = k + 1 := by
  induction fuel generalizing n k with
  | zero =>
    exfalso
    have : 1 ≤ n := le_trans (Nat.one_le_pow _ _ (by omega)) hlo
    omega
  | succ fuel ih =>
    cases n with
    | zero =>
      exfalso
      have : 1 ≤ 0 := le_trans (Nat.one_le_pow _ _ (by omega)) hlo
      omega
    | succ m =>
      simp only [natDigitsAux, List.length_cons]
      cases k with
      | zero =>
        have hdiv : (m + 1) / 10 = 0 := Nat.div_eq_of_lt (by simpa using hhi)
        rw [hdiv, natDigitsAux_zero]
        rfl
      | succ k =>
        have hdiv_lo : 10 ^ k ≤ (m + 1) / 10 := by
          rw [Nat.le_div_iff_mul_le (by omega)]
          calc 10 ^ k * 10 = 10 ^ (k + 1) := by ring
            _ ≤ m + 1 := hlo
        have hdiv_hi : (m + 1) / 10 < 10 ^ (k + 1) := by
          rw [Nat.div_lt_iff_lt_mul (by omega)]
          calc m + 1 < 10 ^ (k + 1 + 1) := hhi
            _ = 10 ^ (k + 1) * 10 := by ring
        have hdivfuel : (m + 1) / 10 ≤ fuel := by
          have := Nat.div_lt_self (Nat.succ_pos m) (by omega : 1 < 10)
          omega
        rw [ih _ _ hdivfuel hdiv_lo hdiv_hi]

lemma digitChar_isDigit (d : Nat) (h : d < 10) :
    (Char.ofNat (48 + d)).isDigit = true := by
  interval_cases d <;> decide

lemma jsNatToString_length (n k : Nat) (hlo : 10 ^ k ≤ n)
    (hhi : n < 10 ^ (k + 1)) : (jsNatToString n).length = k + 1 := by
  have hn : n ≠ 0 := by
    have : 1 ≤ n := le_trans (Nat.one_le_pow _ _ (by omega)) hlo
    omega
  unfold jsNatToString
  rw [if_neg hn]
  show (List.map _ (natDigitsRev n).reverse).length = k + 1
  rw [List.length_map, List.length_reverse]
  exact natDigitsAux_length n n k le_rfl hlo hhi

lemma jsNatToString_all_digits (n : Nat) :
    (jsNatToString n).data.all Char.isDigit = true := by
  unfold jsNatToString
  split_ifs with h
  · decide
  · show ((natDigitsRev n).reverse.map (fun d => Char.ofNat (48 + d))).all _ = true
    rw [List.all_eq_true]
    intro c hc
    rw [List.mem_map] at hc
    obtain ⟨d, hd, rfl⟩ := hc
    rw [List.mem_reverse] at hd
    exact digitChar_isDigit d (natDigitsAux_mem_lt n n d hd)

/-- The grant application identifier built by addGrantApplication and
reapplyForGrant (src/components/AppContext.tsx lines 455-456 and 490-491):
the literal "GA-", the full year, the zero-padded month (getMonth() is
0-based, so month + 1), a hyphen, and Math.floor(Math.random() * 9000)
+ 1000 — here r models the value of Math.floor(Math.random() * 9000),
which lies in [0, 8999]. -/
def genGrantId (year month r : Nat) : String :=
  "GA-" ++ jsNatToString year ++ jsPadStart2Zero (jsNatToString (month + 1))
    ++ "-" ++ jsNatToString (r + 1000)

/-! ### Grant applications -/

/-- A report file entry appended to early/final report lists. -/
structure ReportFile where
  path : String
  file_name : String
  submitted_at : Nat
deriving DecidableEq, Repr

/-- A status-history entry (status, timestamp, notes, actor name). -/
structure StatusHistoryEntry where
  status : String
  timestamp : Nat
  notes : String
  changed_by : String
deriving DecidableEq, Repr

/-- A grant application row (table public.grant_applications).  Statuses are
the string literals of the grant_application_status enum.  Monetary numeric
columns are modelled as Int. -/
structure GrantApplication where
  id : String
  applicant_id : String
  project_name : String
  status : String
  submission_timestamp : Nat
  last_update_timestamp : Nat
  status_history : List StatusHistoryEntry
  amount_approved : Option Int
  initial_disbursement_amount : Option Int
  final_disbursement_amount : Option Int
  early_report_files : List ReportFile
  final_report_files : List ReportFile
  early_report_rejection_count : Nat
  final_report_rejection_count : Nat
  resubmitted_from_id : Option String
  resubmission_count : Nat
  notes : Option String
deriving DecidableEq, Repr

/-- addGrantApplication (src/components/AppContext.tsx lines 453-486):
requires a logged-in user, builds a fresh application with status
"Pending", a single-entry history, empty report lists and
resubmission_count 0, inserts it, and then inserts exactly one
notification addressed to "grant_admins" that references the new id.
The rejection counters are not part of the insert payload; the database
columns start at 0.  year/month/r feed the id generator, now the
timestamps.  Returns the inserted row together with the list of inserted
notifications. -/
def addGrantApplication (currentUser : Option User) (projectName : String)
    (year month r now : Nat) :
    Except String (GrantApplication × List Notification) :=
  match currentUser with
  | none => Except.error "Authentication required."
  | some u =>
    let grantId := genGrantId year month r
    let initialStatus : StatusHistoryEntry :=
      { status := "Pending", timestamp := now
        notes := "Application submitted by applicant.", changed_by := u.name }
    let newApplication : GrantApplication :=
      { id := grantId, applicant_id := u.id, project_name := projectName
        status := "Pending", submission_timestamp := now
        last_update_timestamp := now, status_history := [initialStatus]
        amount_approved := none, initial_disbursement_amount := none
        final_disbursement_amount := none, early_report_files := []
        final_report_files := [], early_report_rejection_count := 0
        final_report_rejection_count := 0, resubmitted_from_id := none
        resubmission_count := 0, notes := none }
    let notification : Notification :=
      { id := "", recipient_id := "grant_admins"
        message := "New grant application \"" ++ projectName
          ++ "\" submitted by " ++ u.name ++ "."
        related_application_id := some grantId, type := "new_app"
        timestamp := now, expires_at := none, read_by := [], cleared_by := [] }
    Except.ok (newApplication, [notification])

/-- reapplyForGrant (src/components/AppContext.tsx lines 488-513): like
addGrantApplication but linking the new application to the prior one and
incrementing its resubmission counter; the notification type is
"resubmission". -/
def reapplyForGrant (currentUser : Option User)
    (originalApp : GrantApplication) (projectName : String)
    (year month r now : Nat) :
    Except String (GrantApplication × List Notification) :=
  match currentUser with
  | none => Except.error "Authentication required."
  | some u =>
    let newId := genGrantId year month r
    let initialStatus : StatusHistoryEntry :=
      { status := "Pending", timestamp := now
        notes := "Re-submitted from previous application " ++ originalApp.id ++ "."
        changed_by := u.name }
    let newApplication : GrantApplication :=
      { id := newId, applicant_id := u.id, project_name := projectName
        status := "Pending", submission_timestamp := now
        last_update_timestamp := now, status_history := [initialStatus]
        amount_approved := none, initial_disbursement_amount := none
        final_disbursement_amount := none, early_report_files := []
        final_report_files := [], early_report_rejection_count := 0
        final_report_rejection_count := 0
        resubmitted_from_id := some originalApp.id
        resubmission_count := originalApp.resubmission_count + 1, notes := none }
    let notification : Notification :=
      { id := "", recipient_id := "grant_admins"
        message := "Grant re-application \"" ++ projectName
          ++ "\" submitted by " ++ u.name ++ "."
        related_application_id := some newId, type := "resubmission"
        timestamp := now, expires_at := none, read_by := [], cleared_by := [] }
    Except.ok (newApplication, [notification])

/-- One invocation of a grant-application RPC stored procedure (the SQL
bodies embedded in src/components/views/AIPlannerView.tsx).  Each carries
its arguments plus the caller name resolved from auth.uid() and the value
of now(). -/
inductive GrantOp where
  | submitReport (reportType : String) (reportFile : ReportFile)
      (userName : String) (t : Nat)
  | handleOfferResponse (accepted : Bool) (userName : String) (t : Nat)
  | adminRejectApplication (notes : String) (userName : String) (t : Nat)
  | adminMakeConditionalOffer (notes : String) (amount : Int)
      (userName : String) (t : Nat)
  | adminApproveEarlyReport (amount : Int) (notes : String)
      (userName : String) (t : Nat)
  | adminRejectEarlyReport (notes : String) (userName : String) (t : Nat)
  | adminRejectFinalReport (notes : String) (userName : String) (t : Nat)
  | adminCompleteApplication (amount : Int) (notes : String)
      (userName : String) (t : Nat)
deriving DecidableEq, Repr

/-- Every SQL transition writes `status_history = status_history ||
jsonb_build_object(status, timestamp, notes, changed_by)`. -/
def appendHistory (app : GrantApplication) (newStatus : String) (t : Nat)
    (note userName : String) : List StatusHistoryEntry :=
  app.status_history ++
    [{ status := newStatus, timestamp := t, notes := note, changed_by := userName }]

/-- The effect of each stored procedure on the matched grant_applications
row, transcribed from the UPDATE statements in the SQL of
src/components/views/AIPlannerView.tsx (submit_report,
handle_grant_offer_response, admin_reject_application,
admin_make_conditional_offer, admin_approve_early_report,
admin_reject_early_report, admin_reject_final_report,
admin_complete_application).  None of these procedures checks the current
status or the caller role before updating: each UPDATE is unconditional on
the row matched by id, and submit_report with a report type other than
"early"/"final" updates nothing. -/
def applyGrantOp (op : GrantOp) (app : GrantApplication) : GrantApplication :=
  match op with
  | .submitReport rt f uname t =>
    if rt = "early" then
      { app with
        status := "Early Report Submitted",
        early_report_files := app.early_report_files ++ [f],
        last_update_timestamp := t,
        status_history := appendHistory app "Early Report Submitted" t
          "Early report submitted by applicant." uname }
    else if rt = "final" then
      { app with
        status := "Final Report Submitted",
        final_report_files := app.final_report_files ++ [f],
        last_update_timestamp := t,
        status_history := appendHistory app "Final Report Submitted" t
          "Final report submitted by applicant." uname }
    else app
  | .handleOfferResponse accepted uname t =>
    let newStatus := if accepted then "Early Report Required" else "Rejected"
    let note := if accepted then "Applicant accepted the conditional offer."
      else "Applicant declined the conditional offer."
    { app with
      status := newStatus,
      last_update_timestamp := t,
      status_history := appendHistory app newStatus t note uname }
  | .adminRejectApplication notes uname t =>
    { app with
      status := "Rejected",
      notes := some notes,
      last_update_timestamp := t,
      status_history := appendHistory app "Rejected" t notes uname }
  | .adminMakeConditionalOffer notes amount uname t =>
    { app with
      status := "Conditional Offer",
      notes := some notes,
      amount_approved := some amount,
      last_update_timestamp := t,
      status_history := appendHistory app "Conditional Offer" t notes uname }
  | .adminApproveEarlyReport amount notes uname t =>
    { app with
      status := "Final Report Required",
      initial_disbursement_amount := some amount,
      notes := some notes,
      last_update_timestamp := t,
      status_history := appendHistory app "Final Report Required" t notes uname }
  | .adminRejectEarlyReport notes uname t =>
    { app with
      status := "Early Report Required",
      early_report_rejection_count := app.early_report_rejection_count + 1,
      notes := some notes,
      last_update_timestamp := t,
      status_history := appendHistory app "Early Report Required" t
        ("Early report rejected. " ++ notes) uname }
  | .adminRejectFinalReport notes uname t =>
    { app with
      status := "Final Report Required",
      final_report_rejection_count := app.final_report_rejection_count + 1,
      notes := some notes,
      last_update_timestamp := t,
      status_history := appendHistory app "Final Report Required" t
        ("Final report rejected. " ++ notes) uname }
  | .adminCompleteApplication amount notes uname t =>
    { app with
      status := "Complete",
      final_disbursement_amount := some amount,
      notes := some notes,
      last_update_timestamp := t,
      status_history := appendHistory app "Complete" t notes uname }

/-- The status of the last status-history entry, when the history is
nonempty. -/
def lastHistoryStatus (app : GrantApplication) : Option String :=
  (app.status_history.getLast?).map StatusHistoryEntry.status

/-- The §3 invariant: status equals the status of the last history entry. -/
def statusMatchesHistory (app : GrantApplication) : Prop :=
  lastHistoryStatus app = some app.status

/-! ### Notification operations -/

/-- markNotificationAsRead (src/components/AppContext.tsx lines 756-762):
the update payload replaces read_by with the old list plus the current
user id appended. -/
def markNotificationAsRead (uid : String) (n : Notification) : Notification :=
  { n with read_by := n.read_by ++ [uid] }

/-- markAllNotificationsAsRead (src/components/AppContext.tsx lines
764-767): every notification of the visible set not yet read by the user
is marked read through markNotificationAsRead; rows are updated by id, so
on a table with one row per id the net effect is the pointwise map. -/
def markAllNotificationsAsRead (u : User) (table : List Notification) :
    List Notification :=
  table.map (fun n =>
    if visibleToCurrentUser u.role u.id n ∧ u.id ∉ n.read_by
    then markNotificationAsRead u.id n else n)

/-- mark_notifications_cleared_by_user(p_notification_ids) (SQL in
src/components/views/AIPlannerView.tsx): when auth.uid() is non-null,
append it to cleared_by on every listed row that does not already contain
it. -/
def markNotificationsClearedByUser (uid : Option String) (ids : List String)
    (table : List Notification) : List Notification :=
  match uid with
  | none => table
  | some u =>
    table.map (fun n =>
      if n.id ∈ ids ∧ u ∉ n.cleared_by
      then { n with cleared_by := n.cleared_by ++ [u] } else n)

/-- Error raised by a guarded stored procedure. -/
inductive RpcError where
  | PermissionDenied (msg : String)
deriving DecidableEq, Repr

/-- is_admin_or_editor() (SQL in src/components/views/AIPlannerView.tsx):
the caller is authenticated and their users row has role Admin or
Editor. -/
def isAdminOrEditor (authenticated : Bool) (role : String) : Bool :=
  authenticated && (role == "Admin" || role == "Editor")

/-- The row send_notification_to_all_users inserts for one user account:
personally addressed, type status_change, fresh random id (modelled as
the empty string since no claim depends on it). -/
def globalNotifFor (message : String) (now : Nat) (u : User) : Notification :=
  { id := "", recipient_id := u.id, message := message
    related_application_id := none, type := "status_change", timestamp := now
    expires_at := none, read_by := [], cleared_by := [] }

/-- send_notification_to_all_users(p_message) (SQL in
src/components/views/AIPlannerView.tsx): unless is_admin_or_editor() the
procedure raises and inserts nothing; otherwise it loops over
public.users and inserts one personally addressed notification per
account.  The result is the list of inserted rows. -/
def sendNotificationToAllUsers (callerAuthenticated : Bool)
    (callerRole : String) (users : List User) (message : String) (now : Nat) :
    Except RpcError (List Notification) :=
  if isAdminOrEditor callerAuthenticated callerRole then
    Except.ok (users.map (globalNotifFor message now))
  else
    Except.error (RpcError.PermissionDenied
      "Only Admins or Editors can send notifications to all users.")

/-- The banner row api.setSiteBanner inserts
(src/services/supabase.ts lines 213-217). -/
def newBannerRow (newId message : String) (expires_at : Option String)
    (now : Nat) : Notification :=
  { id := newId, recipient_id := "global_banner", message := message
    related_application_id := none, type := "status_change", timestamp := now
    expires_at := expires_at, read_by := [], cleared_by := [] }

/-- api.setSiteBanner (src/services/supabase.ts lines 205-218): select the
ids of every row addressed to "global_banner", delete the rows with those
ids when any exist, then insert one fresh banner row carrying the message
and expiry.  newId models crypto.randomUUID(), now the insert
timestamp. -/
def setSiteBanner (table : List Notification) (message : String)
    (expires_at : Option String) (newId : String) (now : Nat) :
    List Notification :=
  let bannersToDelete :=
    (table.filter (fun n => n.recipient_id == "global_banner")).map
      (fun n => n.id)
  let afterDelete :=
    if 0 < bannersToDelete.length then
      table.filter (fun n => !(bannersToDelete.contains n.id))
    else table
  afterDelete ++ [newBannerRow newId message expires_at now]

/-! ### Collection fetches -/

/-- The collection update performed by the fetch helpers of
src/components/AppContext.tsx (fetchClusters, fetchEvents,
fetchGrantApplications, fetchNotifications, fetchUsers, fetchHolidays,
refreshDashboardPromotions, fetchClusterAnalytics, fetchFeedback): on
success the fetched list replaces the collection; on failure handleError
only shows a toast — nothing is rethrown and the collection keeps its
previous value.  Totality of this function is the no-exception
behaviour. -/
def fetchCollectionState {α : Type} (prev : List α)
    (result : Except String (List α)) : List α :=
  match result with
  | .ok data => data
  | .error _ => prev

/-- The update performed by fetchVisitorAnalytics
(src/components/AppContext.tsx lines 259-270), the one fetcher that also
resets its collection to [] on failure. -/
def fetchVisitorAnalyticsState {α : Type} (prev : List α)
    (result : Except String (List α)) : List α :=
  match result with
  | .ok data => data
  | .error _ => []

/-- A cluster row; only the fields the fetch-state logic can observe. -/
structure Cluster where
  id : String
  name : String
deriving DecidableEq, Repr

/-- A concrete cluster used in counterexamples. -/
def sampleCluster : Cluster := { id := "c-1", name := "Hilltop Homestay" }

/-! ### Report file paths -/

/-- The sanitisation api.uploadFile applies to the file name
(src/services/supabase.ts line 113): drop every character outside
[a-zA-Z0-9.\-_]. -/
def sanitizeFileName (s : String) : String :=
  String.mk (s.data.filter (fun c =>
    c.isAlphanum || c == '.' || c == '-' || c == '_'))

/-- The storage object path api.uploadFile uploads to
(src/services/supabase.ts line 113): userId/Date.now()-sanitisedName. -/
def uploadFileStoragePath (userId : String) (ts : Nat) (fileName : String) :
    String :=
  userId ++ "/" ++ jsNatToString ts ++ "-" ++ sanitizeFileName fileName

/-- The path submitReport records in the ReportFile entry
(src/components/AppContext.tsx line 547):
userId/appId/Date.now()-originalName.  This string is computed locally
and never passed to api.uploadFile. -/
def submitReportRecordedPath (userId appId : String) (ts : Nat)
    (fileName : String) : String :=
  userId ++ "/" ++ appId ++ "/" ++ jsNatToString ts ++ "-" ++ fileName

/-! ### Theorems on the grant lifecycle -/

/-- C2: every grant-application transition leaves status equal to the
status of the last status_history entry — the two creation operations
build the row that way, and every stored-procedure transition appends a
history entry carrying exactly the status it writes (the degenerate
submit_report call with an unknown report type changes nothing, so it
preserves the invariant). -/
theorem grant_status_matches_last_history :
    (∀ cu pn year month r now app notifs,
      addGrantApplication cu pn year month r now = Except.ok (app, notifs) →
      statusMatchesHistory app)
    ∧ (∀ cu orig pn year month r now app notifs,
      reapplyForGrant cu orig pn year month r now = Except.ok (app, notifs) →
      statusMatchesHistory app)
    ∧ (∀ op app, statusMatchesHistory app →
      statusMatchesHistory (applyGrantOp op app)) := by
  refine ⟨?_, ?_, ?_⟩
  · intro cu pn year month r now app notifs h
    cases cu with
    | none => exact absurd h (by simp [addGrantApplication])
    | some u =>
      simp only [addGrantApplication, Except.ok.injEq, Prod.mk.injEq] at h
      obtain ⟨rfl, -⟩ := h
      simp [statusMatchesHistory, lastHistoryStatus]
  · intro cu orig pn year month r now app notifs h
    cases cu with
    | none => exact absurd h (by simp [reapplyForGrant])
    | some u =>
      simp only [reapplyForGrant, Except.ok.injEq, Prod.mk.injEq] at h
      obtain ⟨rfl, -⟩ := h
      simp [statusMatchesHistory, lastHistoryStatus]
  · intro op app h
    cases op with
    | submitReport rt f uname t =>
      by_cases h1 : rt = "early"
      · simp [applyGrantOp, h1, statusMatchesHistory, lastHistoryStatus,
          appendHistory]
      · by_cases h2 : rt = "final"
        · simp [applyGrantOp, h1, h2, statusMatchesHistory,
            lastHistoryStatus, appendHistory]
        · simpa [applyGrantOp, h1, h2] using h
    | handleOfferResponse accepted uname t =>
      cases accepted <;>
        simp [applyGrantOp, statusMatchesHistory, lastHistoryStatus,
          appendHistory]
    | adminRejectApplication notes uname t =>
      simp [applyGrantOp, statusMatchesHistory, lastHistoryStatus, appendHistory]
    | adminMakeConditionalOffer notes amount uname t =>
      simp [applyGrantOp, statusMatchesHistory, lastHistoryStatus, appendHistory]
    | adminApproveEarlyReport amount notes uname t =>
      simp [applyGrantOp, statusMatchesHistory, lastHistoryStatus, appendHistory]
    | adminRejectEarlyReport notes uname t =>
      simp [applyGrantOp, statusMatchesHistory, lastHistoryStatus, appendHistory]
    | adminRejectFinalReport notes uname t =>
      simp [applyGrantOp, statusMatchesHistory, lastHistoryStatus, appendHistory]
    | adminCompleteApplication amount notes uname t =>
      simp [applyGrantOp, statusMatchesHistory, lastHistoryStatus, appendHistory]

/-- A freshly submitted application, as built by addGrantApplication. -/
def sampleApp : GrantApplication :=
  { id := "GA-202501-1234", applicant_id := "user-1"
    project_name := "Craft Fair", status := "Pending"
    submission_timestamp := 0, last_update_timestamp := 0
    status_history :=
      [{ status := "Pending", timestamp := 0
         notes := "Application submitted by applicant.", changed_by := "Alice" }]
    amount_approved := none, initial_disbursement_amount := none
    final_disbursement_amount := none, early_report_files := []
    final_report_files := [], early_report_rejection_count := 0
    final_report_rejection_count := 0, resubmitted_from_id := none
    resubmission_count := 0, notes := none }

/-- C2 witness: the invariant holds after a concrete conditional offer on a
freshly submitted application. -/
theorem grant_status_matches_last_history_witness :
    statusMatchesHistory
      (applyGrantOp (GrantOp.adminMakeConditionalOffer "Offer made" 5000 "Bea" 1)
        sampleApp) :=
  grant_status_matches_last_history.2.2
    (GrantOp.adminMakeConditionalOffer "Offer made" 5000 "Bea" 1) sampleApp
    (by unfold statusMatchesHistory; decide)

/-- C5: a successful addGrantApplication creates an application with
status Pending, a one-entry Pending history, resubmission_count 0 and
empty report lists, and inserts exactly one notification addressed to
grant_admins referencing the new id. -/
theorem addGrantApplication_initial_state (u : User) (pn : String)
    (year month r now : Nat) :
    ∃ app notif,
      addGrantApplication (some u) pn year month r now =
        Except.ok (app, [notif]) ∧
      app.status = "Pending" ∧
      app.status_history =
        [{ status := "Pending", timestamp := now
           notes := "Application submitted by applicant."
           changed_by := u.name }] ∧
      app.resubmission_count = 0 ∧
      app.early_report_files = [] ∧
      app.final_report_files = [] ∧
      notif.recipient_id = "grant_admins" ∧
      notif.related_application_id = some app.id :=
  ⟨_, _, rfl, rfl, rfl, rfl, rfl, rfl, rfl, rfl⟩

/-- An application that has already reached the terminal Complete status,
with all three disbursement fields written. -/
def completedApp : GrantApplication :=
  { sampleApp with
    status := "Complete",
    amount_approved := some 5000,
    initial_disbursement_amount := some 2000,
    final_disbursement_amount := some 3000,
    status_history := sampleApp.status_history ++
      [{ status := "Complete", timestamp := 4
         notes := "Final disbursement recorded.", changed_by := "Bea" }] }

/-- C6: the code violates the write-once discipline.
admin_make_conditional_offer performs its UPDATE with no status or role
guard, so invoking it on an application already in the terminal Complete
status succeeds and overwrites amount_approved (5000 becomes 100 — a
second write, outside the designated Pending transition, that decrements
the field). -/
theorem amount_approved_unguarded_overwrite :
    completedApp.status = "Complete" ∧
    completedApp.amount_approved = some 5000 ∧
    (applyGrantOp (GrantOp.adminMakeConditionalOffer "Second offer" 100 "Bea" 5)
        completedApp).status = "Conditional Offer" ∧
    (applyGrantOp (GrantOp.adminMakeConditionalOffer "Second offer" 100 "Bea" 5)
        completedApp).amount_approved = some 100 := by
  decide

/-- C9: the identifier generated by addGrantApplication and reapplyForGrant
decomposes as the literal "GA-", the four decimal digits of the year, the
zero-padded two-digit month, a hyphen, and the four decimal digits of a
number in [1000, 9999]; and no stored-procedure transition ever changes
the id of an application. -/
theorem grantId_pattern_and_immutable :
    (∀ year month r, 1000 ≤ year → year ≤ 9999 → month < 12 → r < 9000 →
      genGrantId year month r =
        "GA-" ++ jsNatToString year
          ++ jsPadStart2Zero (jsNatToString (month + 1))
          ++ "-" ++ jsNatToString (r + 1000) ∧
      (jsNatToString year).length = 4 ∧
      (jsNatToString year).data.all Char.isDigit = true ∧
      (jsPadStart2Zero (jsNatToString (month + 1))).length = 2 ∧
      (jsPadStart2Zero (jsNatToString (month + 1))).data.all Char.isDigit
        = true ∧
      (jsNatToString (r + 1000)).length = 4 ∧
      (jsNatToString (r + 1000)).data.all Char.isDigit = true ∧
      1000 ≤ r + 1000 ∧ r + 1000 ≤ 9999)
    ∧ (∀ op app, (applyGrantOp op app).id = app.id) := by
  constructor
  · intro year month r h1 h2 h3 h4
    refine ⟨rfl, ?_, jsNatToString_all_digits year, ?_, ?_, ?_,
      jsNatToString_all_digits (r + 1000), by omega, by omega⟩
    · exact jsNatToString_length year 3
        (by have h : (10:Nat) ^ 3 = 1000 := by norm_num
            omega)
        (by have h : (10:Nat) ^ (3 + 1) = 10000 := by norm_num
            omega)
    · interval_cases month <;> decide
    · interval_cases month <;> decide
    · exact jsNatToString_length (r + 1000) 3
        (by have h : (10:Nat) ^ 3 = 1000 := by norm_num
            omega)
        (by have h : (10:Nat) ^ (3 + 1) = 10000 := by norm_num
            omega)
  · intro op app
    cases op with
    | submitReport rt f uname t =>
      by_cases h1 : rt = "early"
      · simp [applyGrantOp, h1]
      · by_cases h2 : rt = "final" <;> simp [applyGrantOp, h1, h2]
    | handleOfferResponse accepted uname t => rfl
    | adminRejectApplication notes uname t => rfl
    | adminMakeConditionalOffer notes amount uname t => rfl
    | adminApproveEarlyReport amount notes uname t => rfl
    | adminRejectEarlyReport notes uname t => rfl
    | adminRejectFinalReport notes uname t => rfl
    | adminCompleteApplication amount notes uname t => rfl

/-- C9 witness: the pattern at year 2025, month index 0 (January) and
random draw 234. -/
theorem grantId_pattern_witness :
    genGrantId 2025 0 234 =
      "GA-" ++ jsNatToString 2025 ++ jsPadStart2Zero (jsNatToString 1)
        ++ "-" ++ jsNatToString 1234 ∧
    (jsNatToString 2025).length = 4 ∧
    (jsNatToString 2025).data.all Char.isDigit = true ∧
    (jsPadStart2Zero (jsNatToString 1)).length = 2 ∧
    (jsPadStart2Zero (jsNatToString 1)).data.all Char.isDigit = true ∧
    (jsNatToString 1234).length = 4 ∧
    (jsNatToString 1234).data.all Char.isDigit = true ∧
    1000 ≤ 1234 ∧ 1234 ≤ 9999 :=
  grantId_pattern_and_immutable.1 2025 0 234 (by norm_num) (by norm_num)
    (by norm_num) (by norm_num)

/-! ### Theorems on notifications, fetches and file paths -/

/-- C3: send_notification_to_all_users raises PermissionDenied (inserting
nothing) for every caller whose role is not Admin or Editor, and for an
authenticated elevated caller inserts exactly one personally addressed
row per existing user account. -/
theorem sendGlobalNotification_guard_and_fanout :
    (∀ authd role users message now, ¬(role = "Admin" ∨ role = "Editor") →
      sendNotificationToAllUsers authd role users message now =
        Except.error (RpcError.PermissionDenied
          "Only Admins or Editors can send notifications to all users."))
    ∧ (∀ role users message now, (role = "Admin" ∨ role = "Editor") →
      sendNotificationToAllUsers true role users message now =
        Except.ok (users.map (globalNotifFor message now)) ∧
      (users.map (globalNotifFor message now)).length = users.length)
    ∧ (∀ message now u, (globalNotifFor message now u).recipient_id = u.id) := by
  refine ⟨?_, ?_, fun _ _ _ => rfl⟩
  · intro authd role users message now h
    have hb : isAdminOrEditor authd role = false := by
      simp only [isAdminOrEditor, Bool.and_eq_false_iff, Bool.or_eq_false_iff,
        beq_eq_false_iff_ne, ne_eq]
      right
      constructor
      · intro hr; exact h (Or.inl hr)
      · intro hr; exact h (Or.inr hr)
    simp [sendNotificationToAllUsers, hb]
  · intro role users message now h
    have hb : isAdminOrEditor true role = true := by
      simp only [isAdminOrEditor, Bool.true_and, Bool.or_eq_true, beq_iff_eq]
      exact h
    simp [sendNotificationToAllUsers, hb]

/-- C3 witness: a Tourism Player caller is refused; an Admin caller
broadcasting to a one-account user table inserts exactly that account's
personally addressed row. -/
theorem sendGlobalNotification_guard_witness :
    sendNotificationToAllUsers true "Tourism Player" [sampleUser] "Hello" 0 =
      Except.error (RpcError.PermissionDenied
        "Only Admins or Editors can send notifications to all users.") ∧
    sendNotificationToAllUsers true "Admin" [sampleUser] "Hello" 0 =
      Except.ok [globalNotifFor "Hello" 0 sampleUser] :=
  ⟨sendGlobalNotification_guard_and_fanout.1 true "Tourism Player"
      [sampleUser] "Hello" 0 (by decide),
   by simpa using (sendGlobalNotification_guard_and_fanout.2.1 "Admin"
      [sampleUser] "Hello" 0 (Or.inl rfl)).1⟩

/-- C4: whatever the starting notifications table, after setSiteBanner the
rows addressed to "global_banner" are exactly the single fresh banner row,
which carries the given message and expiry. -/
theorem setSiteBanner_unique_global_banner (table : List Notification)
    (message : String) (expires_at : Option String) (newId : String)
    (now : Nat) :
    (setSiteBanner table message expires_at newId now).filter
        (fun n => n.recipient_id == "global_banner")
      = [newBannerRow newId message expires_at now] := by
  unfold setSiteBanner
  rw [List.filter_append]
  have hafter : ∀ n ∈
      (if 0 < ((table.filter (fun n => n.recipient_id == "global_banner")).map
          (fun n => n.id)).length then
        table.filter (fun n =>
          !(((table.filter (fun n => n.recipient_id == "global_banner")).map
            (fun n => n.id)).contains n.id))
      else table),
      ¬(n.recipient_id == "global_banner") = true := by
    intro n hn
    split_ifs at hn with hpos
    · rw [List.mem_filter] at hn
      obtain ⟨hmem, hnot⟩ := hn
      intro hban
      have hid : n.id ∈ (table.filter
          (fun n => n.recipient_id == "global_banner")).map (fun n => n.id) :=
        List.mem_map.mpr ⟨n, List.mem_filter.mpr ⟨hmem, hban⟩, rfl⟩
      have hnot2 : n.id ∉ (table.filter
          (fun n => n.recipient_id == "global_banner")).map (fun n => n.id) := by
        simpa using hnot
      exact hnot2 hid
    · intro hban
      have hnil : (table.filter
          (fun n => n.recipient_id == "global_banner")).map (fun n => n.id)
          = [] := by
        cases hmap : (table.filter
            (fun n => n.recipient_id == "global_banner")).map (fun n => n.id)
        · rfl
        · exact absurd (by rw [hmap]; simp) hpos
      have : table.filter (fun n => n.recipient_id == "global_banner") = [] :=
        List.map_eq_nil_iff.mp hnil
      have : n ∉ table.filter (fun n => n.recipient_id == "global_banner") :=
        by rw [this]; exact List.not_mem_nil n
      exact this (List.mem_filter.mpr ⟨hn, hban⟩)
  rw [List.filter_eq_nil_iff.mpr hafter]
  simp [newBannerRow]

/-- C7 counterexample: the claim says a failed read leaves the collection
empty, but fetchClusters keeps the previous collection on failure — with a
nonempty prior state the resulting state is that same nonempty list. -/
theorem fetch_failure_empty_counterexample :
    fetchCollectionState [sampleCluster] (Except.error "network failure")
        = [sampleCluster] ∧
      [sampleCluster] ≠ ([] : List Cluster) := by
  exact ⟨rfl, by decide⟩

/-- C7 (amended): collection fetches never surface an exception (the update
below is total); on failure every fetcher keeps the collection at its
previous value, except fetchVisitorAnalytics, which resets its collection
to empty; on success the fetched data replaces the collection. -/
theorem fetch_failure_state {α : Type} :
    (∀ (prev : List α) e,
      fetchCollectionState prev (Except.error e) = prev) ∧
    (∀ (prev : List α) e,
      fetchVisitorAnalyticsState prev (Except.error e) = []) ∧
    (∀ (prev data : List α),
      fetchCollectionState prev (Except.ok data) = data) ∧
    (∀ (prev data : List α),
      fetchVisitorAnalyticsState prev (Except.ok data) = data) :=
  ⟨fun _ _ => rfl, fun _ _ => rfl, fun _ _ => rfl, fun _ _ => rfl⟩

/-- C8: across markNotificationAsRead, markAllNotificationsAsRead and
mark_notifications_cleared_by_user, each surviving notification's read_by
and cleared_by only grow: the new sets contain the old ones. -/
theorem notification_sets_monotone :
    (∀ uid n, n.read_by ⊆ (markNotificationAsRead uid n).read_by ∧
      n.cleared_by ⊆ (markNotificationAsRead uid n).cleared_by)
    ∧ (∀ u table, List.Forall₂ (fun old new : Notification =>
        old.read_by ⊆ new.read_by ∧ old.cleared_by ⊆ new.cleared_by)
        table (markAllNotificationsAsRead u table))
    ∧ (∀ uid ids table, List.Forall₂ (fun old new : Notification =>
        old.read_by ⊆ new.read_by ∧ old.cleared_by ⊆ new.cleared_by)
        table (markNotificationsClearedByUser uid ids table)) := by
  refine ⟨?_, ?_, ?_⟩
  · intro uid n
    exact ⟨List.subset_append_left _ _, List.Subset.refl _⟩
  · intro u table
    rw [markAllNotificationsAsRead, List.forall₂_map_right_iff,
      List.forall₂_same]
    intro n _
    split_ifs
    · exact ⟨List.subset_append_left _ _, List.Subset.refl _⟩
    · exact ⟨List.Subset.refl _, List.Subset.refl _⟩
  · intro uid ids table
    cases uid with
    | none =>
      rw [markNotificationsClearedByUser, List.forall₂_same]
      exact fun n _ => ⟨List.Subset.refl _, List.Subset.refl _⟩
    | some v =>
      rw [markNotificationsClearedByUser, List.forall₂_map_right_iff,
        List.forall₂_same]
      intro n _
      split_ifs
      · exact ⟨List.Subset.refl _, List.subset_append_left _ _⟩
      · exact ⟨List.Subset.refl _, List.Subset.refl _⟩

/-- C10: the code records a report path that differs from where the file is
stored.  submitReport builds userId/appId/timestamp-name for the
ReportFile entry, but api.uploadFile stores the file at
userId/timestamp-sanitisedName — even with the same timestamp and a name
the sanitiser leaves untouched the two disagree, because only the recorded
path contains the application-id segment. -/
theorem submitReport_path_mismatch :
    submitReportRecordedPath "user-1" "GA-202501-1234" 7 "report.pdf" ≠
      uploadFileStoragePath "user-1" 7 "report.pdf" := by
  decide

end Intourcams
